import Mathlib

/-!
Verification of the pg-flight-recorder benchmark analysis code.

Shallow embedding of the three Python source files
(benchmark/lib/compare.py, benchmark/lib/ddl_analyzer.py,
benchmark2/lib/statistical_analysis.py).  Python floats are modelled as
rationals; all comparisons and arithmetic appearing in the claims are
exact at the inputs considered.  Python functions that can raise are
embedded as Except-valued functions; functions with no raise statement
are total.  The square root used by statistics.stdev and math.sqrt is
kept as an explicit function parameter, since the claims only need its
sign behaviour.
-/

set_option maxRecDepth 10000

/-! ## benchmark/lib/compare.py -/

/-- Embedding of calculate_impact (compare.py lines 20 to 24):
percentage impact ((test - baseline) / baseline) * 100, with 0 returned
when baseline == 0. -/
def calculate_impact (baseline test : ℚ) : ℚ :=
  if baseline = 0 then 0
  else ((test - baseline) / baseline) * 100

/-- The five severity tiers produced by assess_impact (compare.py). -/
inductive Severity
  | negligible
  | low
  | moderate
  | high
  | severe
deriving DecidableEq

/-- Embedding of assess_impact (compare.py lines 94 to 108): nested
absolute-value thresholds at 2, 5, 10, 20 percent. -/
def assess_impact (throughput_impact latency_p95_impact : ℚ) : Severity :=
  if |throughput_impact| < 2 ∧ |latency_p95_impact| < 2 then Severity.negligible
  else if |throughput_impact| < 5 ∧ |latency_p95_impact| < 5 then Severity.low
  else if |throughput_impact| < 10 ∧ |latency_p95_impact| < 10 then Severity.moderate
  else if |throughput_impact| < 20 ∧ |latency_p95_impact| < 20 then Severity.high
  else Severity.severe

/-- The eight pg_stat_database counter keys iterated by
compare_database_stats (compare.py lines 78 to 79). -/
inductive StatKey
  | xact_commit
  | xact_rollback
  | blks_read
  | blks_hit
  | tup_returned
  | tup_fetched
  | tup_inserted
  | tup_updated
deriving DecidableEq

/-- One row of the metrics dictionary built by compare_database_stats:
the baseline delta, the test delta and the percent impact. -/
structure DbMetric where
  baseline : ℤ
  test : ℤ
  impact_pct : ℚ
deriving DecidableEq

/-- Modelled from the spec: the spec names an InconsistentCounterError
for negative monotonic-counter deltas.  No such error class exists
anywhere in the source; the type only gives the claimed failure a place
in the result type of the embedded comparison. -/
inductive CompareError
  | inconsistentCounter
deriving DecidableEq

/-- Embedding of the delta helper inside compare_database_stats
(compare.py lines 74 to 75): end[key] - start[key]. -/
def statDelta (start finish : StatKey → ℤ) (key : StatKey) : ℤ :=
  finish key - start key

/-- Embedding of compare_database_stats (compare.py lines 66 to 91).
The Python function contains no raise statement; the Except wrapper
records that it always returns its metrics dictionary, for every pair
of snapshots, including ones with negative deltas. -/
def compare_database_stats (baseline_start baseline_end test_start test_end : StatKey → ℤ) :
    Except CompareError (StatKey → DbMetric) :=
  Except.ok (fun key =>
    { baseline := statDelta baseline_start baseline_end key
      test := statDelta test_start test_end key
      impact_pct := calculate_impact (statDelta baseline_start baseline_end key)
        (statDelta test_start test_end key) })

/-- Projection extracting the metrics dictionary from the result of
compare_database_stats; the error branch never occurs. -/
def resultMetrics (r : Except CompareError (StatKey → DbMetric)) : StatKey → DbMetric :=
  match r with
  | Except.ok m => m
  | Except.error _ => fun _ => { baseline := 0, test := 0, impact_pct := 0 }

/-! ## benchmark2/lib/statistical_analysis.py -/

/-- Embedding of statistics.mean: sum divided by length (0 on the empty
list, which the Python callers all guard against). -/
def pyMean (l : List ℚ) : ℚ :=
  l.sum / (l.length : ℚ)

/-- Sample variance with Bessel correction, the quantity whose square
root statistics.stdev returns. -/
def pyVariance (l : List ℚ) : ℚ :=
  (l.map (fun x => (x - pyMean l) ^ 2)).sum / ((l.length : ℚ) - 1)

/-- Embedding of statistics.stdev: square root of the sample variance,
with the square root kept as an explicit parameter. -/
def pyStdev (sqrtf : ℚ → ℚ) (l : List ℚ) : ℚ :=
  sqrtf (pyVariance l)

/-- Embedding of sorted(values): ascending sort.  On rational values any
sorting algorithm produces the same list, so insertion sort stands in
for the Python sort. -/
def pySorted (l : List ℚ) : List ℚ :=
  l.insertionSort (fun a b => a ≤ b)

/-- Errors observable on the TPS path of analyze_workload
(statistical_analysis.py lines 181 to 190): the explicit
insufficient-data return and the unguarded float division. -/
inductive AnalyzeError
  | insufficientData
  | zeroDivision
deriving DecidableEq

/-- Embedding of the TPS-mean impact path of analyze_workload
(statistical_analysis.py lines 181 to 190): after the emptiness guard,
tps_impact_pct = ((enabled_mean - baseline_mean) / baseline_mean) * 100
with no zero guard, so a zero baseline mean raises ZeroDivisionError in
Python; that is the zeroDivision branch here. -/
def tps_impact_pct (baseline_tps enabled_tps : List ℚ) : Except AnalyzeError ℚ :=
  if baseline_tps = [] ∨ enabled_tps = [] then Except.error AnalyzeError.insufficientData
  else if pyMean baseline_tps = 0 then Except.error AnalyzeError.zeroDivision
  else Except.ok (((pyMean enabled_tps - pyMean baseline_tps) / pyMean baseline_tps) * 100)

/-- Embedding of the per-metric latency impact of analyze_workload
(statistical_analysis.py lines 204 to 209): percent impact and absolute
impact, both 0 unless the baseline value is positive. -/
def latency_metric_impact (baseline_val enabled_val : ℚ) : ℚ × ℚ :=
  if baseline_val > 0 then
    (((enabled_val - baseline_val) / baseline_val) * 100, enabled_val - baseline_val)
  else (0, 0)

/-- The dictionary returned by compute_percentiles. -/
structure Percentiles where
  mean : ℚ
  stddev : ℚ
  p50 : ℚ
  p95 : ℚ
  p99 : ℚ
  max : ℚ
deriving DecidableEq

/-- Embedding of compute_percentiles (statistical_analysis.py lines 96
to 111): direct indexing into the ascending-sorted array at the
truncated indices int(n * 0.50), int(n * 0.95), int(n * 0.99), with the
maximum at index n - 1, and the all-zero dictionary on empty input. -/
def compute_percentiles (sqrtf : ℚ → ℚ) (values : List ℚ) : Percentiles :=
  if values = [] then { mean := 0, stddev := 0, p50 := 0, p95 := 0, p99 := 0, max := 0 }
  else
    let s := pySorted values
    let n := s.length
    { mean := pyMean values
      stddev := if 1 < n then pyStdev sqrtf values else 0
      p50 := s.getD (n * 50 / 100) 0
      p95 := s.getD (n * 95 / 100) 0
      p99 := s.getD (n * 99 / 100) 0
      max := s.getD (n - 1) 0 }

/-- Embedding of compute_confidence_interval (statistical_analysis.py
lines 114 to 129): degenerate interval for fewer than two samples,
otherwise mean plus or minus critical times stderr with critical 1.96
for n above 30 and 2.0 otherwise. -/
def compute_confidence_interval (sqrtf : ℚ → ℚ) (values : List ℚ) : ℚ × ℚ × ℚ :=
  if values.length < 2 then
    let mean := values.getD 0 0
    (mean, mean, 0)
  else
    let n := values.length
    let mean := pyMean values
    let stderr := pyStdev sqrtf values / sqrtf (n : ℚ)
    let t_critical : ℚ := if n > 30 then 1.96 else 2
    let margin := t_critical * stderr
    (mean - margin, mean + margin, margin)

/-- The three-valued per-signal status of assess_results. -/
inductive Status
  | ok
  | warning
  | critical
deriving DecidableEq

/-- The overall verdict of assess_results. -/
inductive Overall
  | pass
  | warning
  | fail
deriving DecidableEq

/-- The record returned by assess_results. -/
structure Assessment where
  tps_status : Status
  p99_status : Status
  overall : Overall
deriving DecidableEq

/-- Embedding of assess_results (statistical_analysis.py lines 245 to
272): TPS thresholds at -3 and -1, the dual-condition latency gate at
(15 percent and 5 ms) and (5 percent and 2 ms), and the overall verdict
from the two statuses. -/
def assess_results (tps_impact p99_impact_pct p99_impact_ms : ℚ) : Assessment :=
  let tps_status :=
    if tps_impact < -3 then Status.critical
    else if tps_impact < -1 then Status.warning
    else Status.ok
  let p99_status :=
    if p99_impact_pct > 15 ∧ p99_impact_ms > 5 then Status.critical
    else if p99_impact_pct > 5 ∧ p99_impact_ms > 2 then Status.warning
    else Status.ok
  let overall :=
    if tps_status = Status.critical ∨ p99_status = Status.critical then Overall.fail
    else if tps_status = Status.warning ∨ p99_status = Status.warning then Overall.warning
    else Overall.pass
  { tps_status := tps_status, p99_status := p99_status, overall := overall }

/-- Rank of a status under the ordering OK below WARNING below
CRITICAL, used to state the worst-of-two rule. -/
def statusRank : Status → ℕ
  | Status.ok => 0
  | Status.warning => 1
  | Status.critical => 2

/-- Worst of two statuses under the ordering OK below WARNING below
CRITICAL. -/
def worstStatus (a b : Status) : Status :=
  if statusRank a ≤ statusRank b then b else a

/-- The overall label attached to a worst status: CRITICAL reports as
FAIL, WARNING as WARNING, OK as PASS. -/
def overallOfStatus : Status → Overall
  | Status.ok => Overall.pass
  | Status.warning => Overall.warning
  | Status.critical => Overall.fail

/-- Tier of a single nonnegative magnitude under the thresholds 2, 5,
10, 20 used by assess_impact; stated over the maximum of the two input
magnitudes it expresses the worst-of-two rule. -/
def severityOf (x : ℚ) : Severity :=
  if x < 2 then Severity.negligible
  else if x < 5 then Severity.low
  else if x < 10 then Severity.moderate
  else if x < 20 then Severity.high
  else Severity.severe

/-! ## benchmark/lib/ddl_analyzer.py -/

/-- Embedding of the DDLOperation dataclass (ddl_analyzer.py lines 16
to 26). -/
structure DDLOperation where
  operation_id : ℤ
  ddl_type : String
  start_time : String
  end_time : String
  duration_ms : ℚ
  was_blocked : Bool
  blocked_by : Option String
  lock_wait_ms : Option ℚ
deriving DecidableEq

/-- Embedding of the blocked_by_flight_recorder property
(ddl_analyzer.py lines 28 to 33): false when not blocked or when
blocked_by is None or empty, otherwise a substring test for
flight_recorder in the lower-cased blocking agent (lower-casing taken
per character over the character list of the string). -/
def DDLOperation.blocked_by_flight_recorder (op : DDLOperation) : Bool :=
  if op.was_blocked = false then false
  else
    match op.blocked_by with
    | none => false
    | some s =>
      if s = "" then false
      else decide (List.IsInfix ("flight_recorder").toList (s.toList.map Char.toLower))

/-- Embedding of the builtin min over a nonempty list, as Python
computes it (left fold); 0 on the empty list, which every caller
guards. -/
def pyMin (l : List ℚ) : ℚ :=
  match l with
  | [] => 0
  | x :: xs => xs.foldl min x

/-- Embedding of the builtin max over a nonempty list, as Python
computes it (left fold); 0 on the empty list, which every caller
guards. -/
def pyMax (l : List ℚ) : ℚ :=
  match l with
  | [] => 0
  | x :: xs => xs.foldl max x

/-- Embedding of statistics.median: middle element of the sorted list
for odd length, average of the two middle elements for even length. -/
def pyMedian (l : List ℚ) : ℚ :=
  let s := pySorted l
  let n := s.length
  if n % 2 = 1 then s.getD (n / 2) 0
  else (s.getD (n / 2 - 1) 0 + s.getD (n / 2) 0) / 2

/-- The index j of the exclusive method of statistics.quantiles with
n = 100: i * (ld + 1) div 100, clamped to the range 1 to ld - 1. -/
def qj (d : List ℚ) (i : ℕ) : ℕ :=
  let j0 := i * (d.length + 1) / 100
  if j0 < 1 then 1 else if j0 > d.length - 1 then d.length - 1 else j0

/-- The exact integer delta of the exclusive method of
statistics.quantiles with n = 100: i * (ld + 1) - j * 100, computed
after clamping j, so it can leave the range 0 to 100 and the cut point
can extrapolate beyond the data range. -/
def qdelta (d : List ℚ) (i : ℕ) : ℤ :=
  (i : ℤ) * ((d.length : ℤ) + 1) - (qj d i : ℤ) * 100

/-- One cut point of statistics.quantiles with n = 100 and the default
exclusive method, exactly as in the CPython source: interpolation
between the data points at j - 1 and j with weight delta / 100. -/
def qpoint (d : List ℚ) (i : ℕ) : ℚ :=
  (d.getD (qj d i - 1) 0 * ((100 : ℚ) - (qdelta d i : ℚ)) + d.getD (qj d i) 0 * (qdelta d i : ℚ))
    / 100

/-- The 99 cut points of statistics.quantiles(data, n = 100) for an
already sorted data list of at least two elements. -/
def pyQuantiles100 (d : List ℚ) : List ℚ :=
  (List.range 99).map (fun k => qpoint d (k + 1))

/-- Embedding of DDLAnalyzer.percentile (ddl_analyzer.py lines 43 to
47): 0 on the empty list, the single element for a one-element list,
otherwise the cut point at index int(p) - 1 of the 100-bin quantile
list of the sorted values.  The float argument p enters only through
the truncation int(p), so it is taken here as a natural number. -/
def percentile (values : List ℚ) (p : ℕ) : ℚ :=
  if values = [] then 0
  else if 1 < values.length then (pyQuantiles100 (pySorted values)).getD (p - 1) 0
  else values.getD 0 0

/-- The dictionary returned by DDLAnalyzer.duration_stats. -/
structure DurationStats where
  count : ℕ
  min : ℚ
  max : ℚ
  mean : ℚ
  median : ℚ
  p95 : ℚ
  p99 : ℚ
  stddev : ℚ
deriving DecidableEq

/-- Embedding of DDLAnalyzer.duration_stats (ddl_analyzer.py lines 49
to 69): the all-zero dictionary on an empty operation list, otherwise
min, max, mean, median, the 95th and 99th percentile and the sample
standard deviation of the durations. -/
def duration_stats (sqrtf : ℚ → ℚ) (ops : List DDLOperation) : DurationStats :=
  if ops = [] then
    { count := 0, min := 0, max := 0, mean := 0, median := 0, p95 := 0, p99 := 0, stddev := 0 }
  else
    let durations := ops.map (fun op => op.duration_ms)
    { count := durations.length
      min := pyMin durations
      max := pyMax durations
      mean := pyMean durations
      median := pyMedian durations
      p95 := percentile durations 95
      p99 := percentile durations 99
      stddev := if 1 < durations.length then pyStdev sqrtf durations else 0 }

/-- The dictionary returned by DDLAnalyzer.blocking_analysis. -/
structure BlockingAnalysis where
  total_blocked : ℕ
  total_blocked_pct : ℚ
  fr_blocked : ℕ
  fr_blocked_pct : ℚ
  blocked_stats : DurationStats
  fr_blocked_stats : DurationStats

/-- Embedding of DDLAnalyzer.blocking_analysis (ddl_analyzer.py lines
71 to 83): counts and percentages of blocked operations and of
operations blocked by the flight recorder, with duration statistics for
both groups. -/
def blocking_analysis (sqrtf : ℚ → ℚ) (ops : List DDLOperation) : BlockingAnalysis :=
  let total_count := ops.length
  let blocked := ops.filter (fun op => op.was_blocked)
  let fr_blocked := ops.filter (fun op => op.blocked_by_flight_recorder)
  { total_blocked := blocked.length
    total_blocked_pct :=
      if 0 < total_count then (blocked.length : ℚ) / (total_count : ℚ) * 100 else 0
    fr_blocked := fr_blocked.length
    fr_blocked_pct :=
      if 0 < total_count then (fr_blocked.length : ℚ) / (total_count : ℚ) * 100 else 0
    blocked_stats := duration_stats sqrtf blocked
    fr_blocked_stats := duration_stats sqrtf fr_blocked }

/-- The percentage of operations blocked by the flight recorder, as
computed inline by collision_probability and risk_assessment
(ddl_analyzer.py lines 116 to 117 and 136 to 137). -/
def fr_blocked_pct (ops : List DDLOperation) : ℚ :=
  if 0 < ops.length then
    ((ops.filter (fun op => op.blocked_by_flight_recorder)).length : ℚ) / (ops.length : ℚ) * 100
  else 0

/-- The dictionary returned by DDLAnalyzer.collision_probability. -/
structure CollisionProjection where
  interval_seconds : ℕ
  collections_per_day : ℕ
  operations_per_hour : ℕ
  collision_probability_pct : ℚ
  expected_collisions_per_day : ℚ
  expected_collisions_per_hour : ℚ
deriving DecidableEq

/-- Embedding of DDLAnalyzer.collision_probability (ddl_analyzer.py
lines 114 to 132): collections per day by integer division of 86400 by
the interval, and expected collisions per day as collections times
measured block rate over 100 times daily operation count.  The interval
is positive in Python (division by zero would raise). -/
def collision_probability (ops : List DDLOperation)
    (interval_seconds operations_per_hour : ℕ) : CollisionProjection :=
  let pct := fr_blocked_pct ops
  let collections_per_day := 86400 / interval_seconds
  let expected :=
    (collections_per_day : ℚ) * (pct / 100) * ((operations_per_hour : ℚ) * 24)
  { interval_seconds := interval_seconds
    collections_per_day := collections_per_day
    operations_per_hour := operations_per_hour
    collision_probability_pct := pct
    expected_collisions_per_day := expected
    expected_collisions_per_hour := expected / 24 }

/-- The average duration of operations blocked by the flight recorder,
as computed by risk_assessment (ddl_analyzer.py lines 139 to 140); 0
when no such operation exists. -/
def avg_fr_delay (ops : List DDLOperation) : ℚ :=
  let fr := ops.filter (fun op => op.blocked_by_flight_recorder)
  if fr = [] then 0 else pyMean (fr.map (fun op => op.duration_ms))

/-- Rendering of a rational to one decimal place, standing in for the
Python format specifier used in the high-delay note. -/
def fmt1 (q : ℚ) : String :=
  let t : ℤ := round (q * 10)
  toString (t / 10) ++ "." ++ toString (t.natAbs % 10)

/-- The high-delay sentence appended to the recommendation by
risk_assessment (ddl_analyzer.py line 158). -/
def delayNote (avg_delay : ℚ) : String :=
  "\nAverage delay " ++ fmt1 avg_delay ++ "ms is concerning for latency-sensitive applications"

/-- Embedding of DDLAnalyzer.risk_assessment (ddl_analyzer.py lines 134
to 160): base tier and recommendation from the blocked percentage at
thresholds 1, 3, 5, then a high-delay qualifier appended to both when
the average delay exceeds 100 ms. -/
def risk_assessment (ops : List DDLOperation) : String × String :=
  let pct := fr_blocked_pct ops
  let avg_delay := avg_fr_delay ops
  let base :=
    if pct < 1 then
      ("LOW", "Safe for production use with high DDL workloads")
    else if pct < 3 then
      ("MODERATE", "Safe for typical workloads. Monitor if >50 DDL ops/hour")
    else if pct < 5 then
      ("MODERATE-HIGH", "Consider emergency mode (300s) during DDL-heavy periods")
    else
      ("HIGH", "Use emergency mode (300s) or schedule DDL during low-traffic windows")
  if avg_delay > 100 then (base.1 ++ " (HIGH DELAY)", base.2 ++ delayNote avg_delay)
  else base

/-! ## Auxiliary definitions for stating the claims -/

/-- True exactly on the error branch of the embedded
compare_database_stats result. -/
def raisesCounterError : Except CompareError (StatKey → DbMetric) → Bool
  | Except.error _ => true
  | Except.ok _ => false

/-- Follows the spec wording of classifyBlockingRisk: thresholds at 1,
3, 5 percent give the base tiers LOW, MODERATE, MODERATE-HIGH, HIGH,
and an average delay above 100 ms appends the high-delay qualifier to
both the tier and the recommendation. -/
def classifyBlockingRiskSpec (recorderBlockedPct avgDelayMs : ℚ) : String × String :=
  let baseTier :=
    if recorderBlockedPct < 1 then "LOW"
    else if recorderBlockedPct < 3 then "MODERATE"
    else if recorderBlockedPct < 5 then "MODERATE-HIGH"
    else "HIGH"
  let baseRec :=
    if recorderBlockedPct < 1 then "Safe for production use with high DDL workloads"
    else if recorderBlockedPct < 3 then "Safe for typical workloads. Monitor if >50 DDL ops/hour"
    else if recorderBlockedPct < 5 then "Consider emergency mode (300s) during DDL-heavy periods"
    else "Use emergency mode (300s) or schedule DDL during low-traffic windows"
  if avgDelayMs > 100 then (baseTier ++ " (HIGH DELAY)", baseRec ++ delayNote avgDelayMs)
  else (baseTier, baseRec)

/-- A concrete operation that was never blocked, with the given
duration. -/
def sampleOp (d : ℚ) : DDLOperation :=
  { operation_id := 0, ddl_type := "ALTER TABLE", start_time := "t0", end_time := "t1"
    duration_ms := d, was_blocked := false, blocked_by := none, lock_wait_ms := none }

/-- A concrete operation blocked by the flight recorder, with the given
duration. -/
def sampleBlockedOp (d : ℚ) : DDLOperation :=
  { operation_id := 1, ddl_type := "CREATE INDEX", start_time := "t0", end_time := "t1"
    duration_ms := d, was_blocked := true, blocked_by := some "flight_recorder"
    lock_wait_ms := some 5 }

/-- Fifty concrete operations of which exactly one is blocked by the
flight recorder, so the measured block rate is 2 percent. -/
def exampleOps : List DDLOperation :=
  sampleBlockedOp 50 :: List.replicate 49 (sampleOp 10)

/-- Twenty concrete operations whose durations are nineteen zeros and a
single 100. -/
def cexOps : List DDLOperation :=
  List.replicate 19 (sampleOp 0) ++ [sampleOp 100]

/-- The duration list of cexOps. -/
def cexVals : List ℚ :=
  List.replicate 19 0 ++ [100]

/-! ## Helper lemmas -/

theorem foldl_min_le_init (l : List ℚ) (b : ℚ) : l.foldl min b ≤ b := by
  induction l generalizing b with
  | nil => exact le_refl b
  | cons a t ih => exact le_trans (ih (min b a)) (min_le_left b a)

theorem foldl_min_le_mem (l : List ℚ) (b x : ℚ) (hx : x ∈ l) : l.foldl min b ≤ x := by
  induction l generalizing b with
  | nil => cases hx
  | cons a t ih =>
    rcases List.mem_cons.mp hx with h | h
    · subst h
      exact le_trans (foldl_min_le_init t (min b x)) (min_le_right b x)
    · exact ih (min b a) h

theorem le_foldl_max_init (l : List ℚ) (b : ℚ) : b ≤ l.foldl max b := by
  induction l generalizing b with
  | nil => exact le_refl b
  | cons a t ih => exact le_trans (le_max_left b a) (ih (max b a))

theorem mem_le_foldl_max (l : List ℚ) (b x : ℚ) (hx : x ∈ l) : x ≤ l.foldl max b := by
  induction l generalizing b with
  | nil => cases hx
  | cons a t ih =>
    rcases List.mem_cons.mp hx with h | h
    · subst h
      exact le_trans (le_max_right b x) (le_foldl_max_init t (max b x))
    · exact ih (max b a) h

theorem pyMin_le_of_mem {l : List ℚ} {x : ℚ} (hx : x ∈ l) : pyMin l ≤ x := by
  cases l with
  | nil => cases hx
  | cons a t =>
    rcases List.mem_cons.mp hx with h | h
    · subst h
      exact foldl_min_le_init t x
    · exact foldl_min_le_mem t a x h

theorem le_pyMax_of_mem {l : List ℚ} {x : ℚ} (hx : x ∈ l) : x ≤ pyMax l := by
  cases l with
  | nil => cases hx
  | cons a t =>
    rcases List.mem_cons.mp hx with h | h
    · subst h
      exact le_foldl_max_init t x
    · exact mem_le_foldl_max t a x h

theorem getD_mono_of_sorted {d : List ℚ} (hd : List.Sorted (fun a b => a ≤ b) d)
    {a b : ℕ} (hab : a ≤ b) (hb : b < d.length) : d.getD a 0 ≤ d.getD b 0 := by
  have ha : a < d.length := lt_of_le_of_lt hab hb
  rw [List.getD_eq_getElem _ _ ha, List.getD_eq_getElem _ _ hb]
  rcases Nat.eq_or_lt_of_le hab with h | h
  · subst h
    exact le_refl _
  · have hr := hd.rel_get_of_lt (a := ⟨a, ha⟩) (b := ⟨b, hb⟩) (by simpa using h)
    simpa using hr

theorem getD_mem_of_lt {d : List ℚ} {a : ℕ} (ha : a < d.length) : d.getD a 0 ∈ d := by
  rw [List.getD_eq_getElem _ _ ha]
  exact List.getElem_mem ha

theorem pySorted_length (l : List ℚ) : (pySorted l).length = l.length :=
  (List.perm_insertionSort _ l).length_eq

theorem pySorted_sorted (l : List ℚ) : List.Sorted (fun a b => a ≤ b) (pySorted l) :=
  List.sorted_insertionSort _ l

theorem pySorted_mem {l : List ℚ} {x : ℚ} (hx : x ∈ pySorted l) : x ∈ l :=
  (List.perm_insertionSort _ l).mem_iff.mp hx

theorem pyMedian_bounds {l : List ℚ} (h : l ≠ []) :
    pyMin l ≤ pyMedian l ∧ pyMedian l ≤ pyMax l := by
  have hpos : 0 < l.length := List.length_pos.mpr h
  have hslen : (pySorted l).length = l.length := pySorted_length l
  have hhalf : l.length / 2 < (pySorted l).length := by
    rw [hslen]
    omega
  have hhalf1 : l.length / 2 - 1 < (pySorted l).length := by
    omega
  have hmem : (pySorted l).getD (l.length / 2) 0 ∈ l :=
    pySorted_mem (getD_mem_of_lt hhalf)
  have hmem1 : (pySorted l).getD (l.length / 2 - 1) 0 ∈ l :=
    pySorted_mem (getD_mem_of_lt hhalf1)
  simp only [pyMedian]
  rw [hslen]
  split_ifs with hodd
  · exact ⟨pyMin_le_of_mem hmem, le_pyMax_of_mem hmem⟩
  · constructor
    · have h1 := pyMin_le_of_mem hmem1
      have h2 := pyMin_le_of_mem hmem
      linarith
    · have h1 := le_pyMax_of_mem hmem1
      have h2 := le_pyMax_of_mem hmem
      linarith

theorem pyVariance_nonneg {l : List ℚ} (h : 2 ≤ l.length) : 0 ≤ pyVariance l := by
  unfold pyVariance
  apply div_nonneg
  · apply List.sum_nonneg
    intro x hx
    rcases List.mem_map.mp hx with ⟨y, _, rfl⟩
    positivity
  · have : (2 : ℚ) ≤ (l.length : ℚ) := by exact_mod_cast h
    linarith

theorem length_filter_mono {α : Type} (p q : α → Bool) (h : ∀ a, p a = true → q a = true)
    (l : List α) : (l.filter p).length ≤ (l.filter q).length := by
  induction l with
  | nil => simp
  | cons a t ih =>
    by_cases hp : p a
    · have hq := h a hp
      simp only [List.filter_cons, hp, hq, if_true, List.length_cons]
      omega
    · by_cases hq : q a <;>
        simp only [List.filter_cons, hp, hq, if_true, if_false, Bool.false_eq_true,
          List.length_cons] <;> omega

theorem fr_imp_was_blocked (op : DDLOperation) :
    op.blocked_by_flight_recorder = true → op.was_blocked = true := by
  unfold DDLOperation.blocked_by_flight_recorder
  cases h : op.was_blocked <;> simp [h]

theorem interp_mono (a b : ℚ) (hab : a ≤ b) (d1 d2 : ℚ) (h : d1 ≤ d2) :
    (a * (100 - d1) + b * d1) / 100 ≤ (a * (100 - d2) + b * d2) / 100 := by
  rw [div_le_div_right (by norm_num : (0 : ℚ) < 100)]
  nlinarith [mul_nonneg (sub_nonneg.mpr hab) (sub_nonneg.mpr h)]

theorem interp_le_right (a b : ℚ) (hab : a ≤ b) (d1 : ℚ) (h : d1 ≤ 100) :
    (a * (100 - d1) + b * d1) / 100 ≤ b := by
  rw [div_le_iff (by norm_num : (0 : ℚ) < 100)]
  nlinarith [mul_nonneg (sub_nonneg.mpr hab) (sub_nonneg.mpr h)]

theorem interp_ge_left (a b : ℚ) (hab : a ≤ b) (d1 : ℚ) (h : 0 ≤ d1) :
    a ≤ (a * (100 - d1) + b * d1) / 100 := by
  rw [le_div_iff (by norm_num : (0 : ℚ) < 100)]
  nlinarith [mul_nonneg (sub_nonneg.mpr hab) h]

theorem qj_pos {d : List ℚ} (h2 : 2 ≤ d.length) (i : ℕ) : 1 ≤ qj d i := by
  simp only [qj]
  split_ifs <;> omega

theorem qj_le {d : List ℚ} (h2 : 2 ≤ d.length) (i : ℕ) : qj d i ≤ d.length - 1 := by
  simp only [qj]
  split_ifs <;> omega

theorem qj_mono {d : List ℚ} (h2 : 2 ≤ d.length) {i1 i2 : ℕ} (h : i1 ≤ i2) :
    qj d i1 ≤ qj d i2 := by
  have hj0 : i1 * (d.length + 1) / 100 ≤ i2 * (d.length + 1) / 100 :=
    Nat.div_le_div_right (Nat.mul_le_mul_right _ h)
  simp only [qj]
  split_ifs <;> omega

theorem qdelta_eq (d : List ℚ) (i : ℕ) :
    qdelta d i = ((i * (d.length + 1) : ℕ) : ℤ) - (qj d i : ℤ) * 100 := by
  unfold qdelta
  push_cast
  ring

theorem qdelta_le_100 {d : List ℚ} (h2 : 2 ≤ d.length) {i : ℕ}
    (hlt : qj d i < d.length - 1) : qdelta d i ≤ 100 := by
  rw [qdelta_eq]
  simp only [qj] at hlt ⊢
  split_ifs at hlt ⊢ <;> omega

theorem qdelta_nonneg {d : List ℚ} {i : ℕ} (h2q : 2 ≤ qj d i) : 0 ≤ qdelta d i := by
  rw [qdelta_eq]
  simp only [qj] at h2q ⊢
  split_ifs at h2q ⊢ <;> omega

theorem qpoint_mono {d : List ℚ} (hd : List.Sorted (fun a b => a ≤ b) d) (h2 : 2 ≤ d.length)
    {i1 i2 : ℕ} (h12 : i1 ≤ i2) : qpoint d i1 ≤ qpoint d i2 := by
  have hj1pos := qj_pos h2 i1
  have hj2pos := qj_pos h2 i2
  have hj1le := qj_le h2 i1
  have hj2le := qj_le h2 i2
  have hjmono := qj_mono h2 h12
  have hj1lt : qj d i1 < d.length := by omega
  have hj2lt : qj d i2 < d.length := by omega
  have ha1 : d.getD (qj d i1 - 1) 0 ≤ d.getD (qj d i1) 0 :=
    getD_mono_of_sorted hd (by omega) hj1lt
  have ha2 : d.getD (qj d i2 - 1) 0 ≤ d.getD (qj d i2) 0 :=
    getD_mono_of_sorted hd (by omega) hj2lt
  rcases Nat.eq_or_lt_of_le hjmono with heq | hlt
  · have hdle : qdelta d i1 ≤ qdelta d i2 := by
      rw [qdelta_eq, qdelta_eq, heq]
      have hmul : i1 * (d.length + 1) ≤ i2 * (d.length + 1) := Nat.mul_le_mul_right _ h12
      omega
    unfold qpoint
    rw [heq]
    exact interp_mono _ _ ha2 _ _ (by exact_mod_cast hdle)
  · have hd1 : qdelta d i1 ≤ 100 := qdelta_le_100 h2 (by omega)
    have hd2 : 0 ≤ qdelta d i2 := qdelta_nonneg (by omega)
    have hmid : d.getD (qj d i1) 0 ≤ d.getD (qj d i2 - 1) 0 :=
      getD_mono_of_sorted hd (by omega) (by omega)
    unfold qpoint
    calc (d.getD (qj d i1 - 1) 0 * (100 - (qdelta d i1 : ℚ)) +
            d.getD (qj d i1) 0 * (qdelta d i1 : ℚ)) / 100
        ≤ d.getD (qj d i1) 0 := interp_le_right _ _ ha1 _ (by exact_mod_cast hd1)
      _ ≤ d.getD (qj d i2 - 1) 0 := hmid
      _ ≤ (d.getD (qj d i2 - 1) 0 * (100 - (qdelta d i2 : ℚ)) +
            d.getD (qj d i2) 0 * (qdelta d i2 : ℚ)) / 100 :=
          interp_ge_left _ _ ha2 _ (by exact_mod_cast hd2)

theorem pyQuantiles100_getD (d : List ℚ) {p : ℕ} (h1 : 1 ≤ p) (h99 : p ≤ 99) :
    (pyQuantiles100 d).getD (p - 1) 0 = qpoint d p := by
  have hlen : (pyQuantiles100 d).length = 99 := by simp [pyQuantiles100]
  rw [List.getD_eq_getElem _ _ (by rw [hlen]; omega)]
  simp only [pyQuantiles100, List.getElem_map, List.getElem_range]
  congr 1
  omega

theorem percentile_mono {values : List ℚ} (hv : values ≠ []) {p1 p2 : ℕ}
    (hp1 : 1 ≤ p1) (hp12 : p1 ≤ p2) (hp2 : p2 ≤ 99) :
    percentile values p1 ≤ percentile values p2 := by
  simp only [percentile, if_neg hv]
  by_cases hlen : 1 < values.length
  · rw [if_pos hlen, if_pos hlen]
    rw [pyQuantiles100_getD _ hp1 (le_trans hp12 hp2),
      pyQuantiles100_getD _ (le_trans hp1 hp12) hp2]
    apply qpoint_mono (pySorted_sorted values) _ hp12
    rw [pySorted_length]
    omega
  · rw [if_neg hlen, if_neg hlen]

/-! ## Claims -/

/-- C1, counterexample: on snapshots whose counter deltas are negative
(end 5 versus start 10 for every key), compare_database_stats does not
fail with an InconsistentCounterError; it returns metrics carrying the
negative delta -5 and the impact computed from it. -/
theorem claim_C1_counterexample :
    raisesCounterError
        (compare_database_stats (fun _ => 10) (fun _ => 5) (fun _ => 0) (fun _ => 7)) = false ∧
    resultMetrics (compare_database_stats (fun _ => 10) (fun _ => 5) (fun _ => 0) (fun _ => 7))
        StatKey.xact_commit = { baseline := -5, test := 7, impact_pct := -240 } ∧
    ((-5 : ℤ) < 0) := by
  refine ⟨rfl, ?_, by norm_num⟩
  simp only [resultMetrics, compare_database_stats, statDelta, calculate_impact]
  norm_num

/-- C1, amended: for every pair of counter snapshots the comparison
never fails; each delta end[key] - start[key], negative or not, is
propagated unchanged into the resulting metric values together with the
percent impact calculated from the deltas. -/
theorem claim_C1_amended (bs be ts te : StatKey → ℤ) :
    raisesCounterError (compare_database_stats bs be ts te) = false ∧
    (∀ key, resultMetrics (compare_database_stats bs be ts te) key =
      { baseline := be key - bs key, test := te key - ts key,
        impact_pct := calculate_impact ((be key - bs key : ℤ) : ℚ) ((te key - ts key : ℤ) : ℚ) }) :=
  ⟨rfl, fun _ => rfl⟩

/-- C2, counterexample: on the TPS-mean path a baseline run list whose
mean TPS is 0 raises ZeroDivisionError instead of producing a zero
percent delta. -/
theorem claim_C2_counterexample :
    tps_impact_pct [0] [5] = Except.error AnalyzeError.zeroDivision := by
  simp [tps_impact_pct, pyMean]

/-- C2, amended: the scalar compare and the per-metric series
comparison return a zero percent delta for a zero baseline and raise no
division error for any test value, but the TPS-mean path of
analyze_workload divides by the baseline mean without a zero guard and
raises ZeroDivisionError when that mean is 0. -/
theorem claim_C2_amended (t : ℚ) :
    calculate_impact 0 t = 0 ∧
    latency_metric_impact 0 t = (0, 0) ∧
    tps_impact_pct [0] [t] = Except.error AnalyzeError.zeroDivision := by
  refine ⟨by simp [calculate_impact], by simp [latency_metric_impact], ?_⟩
  simp [tps_impact_pct, pyMean]

/-- C4: assess_impact assigns the worst tier required by either signal
under the nested absolute-value thresholds 2, 5, 10, 20 (equivalently,
the tier of the larger magnitude), and the four documented examples
evaluate to NEGLIGIBLE, LOW, HIGH and SEVERE. -/
theorem claim_C4_assess_impact :
    (∀ t l : ℚ, assess_impact t l = severityOf (max |t| |l|)) ∧
    assess_impact 1 1 = Severity.negligible ∧
    assess_impact 3 3 = Severity.low ∧
    assess_impact 15 15 = Severity.high ∧
    assess_impact 25 1 = Severity.severe := by
  refine ⟨fun t l => ?_, by decide, by decide, by decide, by decide⟩
  simp only [assess_impact, severityOf, max_lt_iff]

/-- C5: assess_results classifies the TPS status by the thresholds -3
and -1, the latency status by the dual-condition gate (15 percent and
5 ms for CRITICAL, 5 percent and 2 ms for WARNING), takes the overall
verdict as the worst of the two statuses (CRITICAL reporting as FAIL),
and the two documented examples evaluate as claimed. -/
theorem claim_C5_assess_results :
    (∀ t p m : ℚ,
      ((assess_results t p m).tps_status = Status.critical ↔ t < -3) ∧
      ((assess_results t p m).tps_status = Status.warning ↔ -3 ≤ t ∧ t < -1) ∧
      ((assess_results t p m).tps_status = Status.ok ↔ -1 ≤ t) ∧
      ((assess_results t p m).p99_status = Status.critical ↔ (15 < p ∧ 5 < m)) ∧
      ((assess_results t p m).p99_status = Status.warning ↔
        (¬(15 < p ∧ 5 < m) ∧ 5 < p ∧ 2 < m)) ∧
      ((assess_results t p m).p99_status = Status.ok ↔
        (¬(15 < p ∧ 5 < m) ∧ ¬(5 < p ∧ 2 < m))) ∧
      (assess_results t p m).overall =
        overallOfStatus (worstStatus (assess_results t p m).tps_status
          (assess_results t p m).p99_status)) ∧
    assess_results (-4) 20 10 =
      { tps_status := Status.critical, p99_status := Status.critical, overall := Overall.fail } ∧
    (assess_results (-(1 / 2)) 20 1).p99_status = Status.ok ∧
    (assess_results (-(1 / 2)) 20 1).tps_status = Status.ok := by
  refine ⟨fun t p m => ?_, by decide, by norm_num [assess_results], by norm_num [assess_results]⟩
  simp only [assess_results]
  split_ifs <;>
    simp_all [not_lt, worstStatus, statusRank, overallOfStatus] <;>
    linarith

/-- C7: the summary statistics of an empty sample collection are the
all-zero record under both implementations, with no failure. -/
theorem claim_C7_empty_stats (sqrtf : ℚ → ℚ) :
    duration_stats sqrtf [] =
      { count := 0, min := 0, max := 0, mean := 0, median := 0, p95 := 0, p99 := 0, stddev := 0 } ∧
    compute_percentiles sqrtf [] =
      { mean := 0, stddev := 0, p50 := 0, p95 := 0, p99 := 0, max := 0 } :=
  ⟨rfl, rfl⟩

/-- C9: risk_assessment agrees with the spec classifier: thresholds at
1, 3, 5 percent choose the base tier and recommendation, and an average
delay above 100 ms appends the high-delay qualifier to both. -/
theorem claim_C9_risk_assessment (ops : List DDLOperation) :
    risk_assessment ops = classifyBlockingRiskSpec (fr_blocked_pct ops) (avg_fr_delay ops) := by
  simp only [risk_assessment, classifyBlockingRiskSpec]
  split_ifs <;> rfl

/-- C6: collision_probability computes collections per day as the
integer division of 86400 by the interval and the expected collisions
per day as collections times the measured block rate over 100 times the
daily operation count; at a 2 percent measured rate, 180 second
interval and 100 operations per hour this gives 480 collections and
23040 expected collisions per day. -/
theorem claim_C6_collision (ops : List DDLOperation) (interval_seconds operations_per_hour : ℕ)
    (h : 0 < interval_seconds) :
    (collision_probability ops interval_seconds operations_per_hour).collections_per_day =
      86400 / interval_seconds ∧
    (collision_probability ops interval_seconds operations_per_hour).expected_collisions_per_day =
      ((86400 / interval_seconds : ℕ) : ℚ) * (fr_blocked_pct ops / 100) *
        ((operations_per_hour : ℚ) * 24) ∧
    (collision_probability exampleOps 180 100).collections_per_day = 480 ∧
    (collision_probability exampleOps 180 100).expected_collisions_per_day = 23040 ∧
    fr_blocked_pct exampleOps = 2 := by
  have hfl : (List.filter (fun op => op.blocked_by_flight_recorder) exampleOps).length = 1 := by
    decide
  have hlen : exampleOps.length = 50 := by decide
  have hpct : fr_blocked_pct exampleOps = 2 := by
    simp only [fr_blocked_pct, hfl, hlen]
    norm_num
  refine ⟨rfl, rfl, by norm_num [collision_probability], ?_, hpct⟩
  simp only [collision_probability, hpct]
  norm_num

/-- C6 witness: the general theorem instantiated at the documented
example inputs. -/
theorem claim_C6_witness :
    (collision_probability exampleOps 180 100).collections_per_day = 480 ∧
    (collision_probability exampleOps 180 100).expected_collisions_per_day = 23040 ∧
    fr_blocked_pct exampleOps = 2 :=
  (claim_C6_collision exampleOps 180 100 (by norm_num)).2.2

/-- C10: in every blocking analysis the count and percentage of
operations blocked by the flight recorder are bounded by the count and
percentage of all blocked operations, both percentages lie between 0
and 100, and on the empty operation list all four quantities are 0. -/
theorem claim_C10_blocking (sqrtf : ℚ → ℚ) (ops : List DDLOperation) :
    (blocking_analysis sqrtf ops).fr_blocked ≤ (blocking_analysis sqrtf ops).total_blocked ∧
    (blocking_analysis sqrtf ops).fr_blocked_pct ≤
      (blocking_analysis sqrtf ops).total_blocked_pct ∧
    0 ≤ (blocking_analysis sqrtf ops).fr_blocked_pct ∧
    (blocking_analysis sqrtf ops).fr_blocked_pct ≤ 100 ∧
    0 ≤ (blocking_analysis sqrtf ops).total_blocked_pct ∧
    (blocking_analysis sqrtf ops).total_blocked_pct ≤ 100 ∧
    (blocking_analysis sqrtf []).total_blocked = 0 ∧
    (blocking_analysis sqrtf []).fr_blocked = 0 ∧
    (blocking_analysis sqrtf []).total_blocked_pct = 0 ∧
    (blocking_analysis sqrtf []).fr_blocked_pct = 0 := by
  have hmono := length_filter_mono (fun op => op.blocked_by_flight_recorder)
    (fun op => op.was_blocked) (fun a ha => fr_imp_was_blocked a ha) ops
  have hleT : (ops.filter (fun op => op.was_blocked)).length ≤ ops.length :=
    List.length_filter_le _ _
  have hleF : (ops.filter (fun op => op.blocked_by_flight_recorder)).length ≤ ops.length :=
    List.length_filter_le _ _
  simp only [blocking_analysis]
  by_cases hpos : 0 < ops.length
  · have hn : (0 : ℚ) < (ops.length : ℚ) := by exact_mod_cast hpos
    have hcF : ((ops.filter (fun op => op.blocked_by_flight_recorder)).length : ℚ) ≤
        ((ops.filter (fun op => op.was_blocked)).length : ℚ) := by exact_mod_cast hmono
    have hcT : ((ops.filter (fun op => op.was_blocked)).length : ℚ) ≤ (ops.length : ℚ) := by
      exact_mod_cast hleT
    have hcF2 : ((ops.filter (fun op => op.blocked_by_flight_recorder)).length : ℚ) ≤
        (ops.length : ℚ) := by exact_mod_cast hleF
    refine ⟨hmono, ?_, ?_, ?_, ?_, ?_, rfl, rfl, rfl, rfl⟩
    · rw [if_pos hpos, if_pos hpos]
      gcongr
    · rw [if_pos hpos]
      positivity
    · rw [if_pos hpos, div_mul_eq_mul_div, div_le_iff hn]
      linarith
    · rw [if_pos hpos]
      positivity
    · rw [if_pos hpos, div_mul_eq_mul_div, div_le_iff hn]
      linarith
  · refine ⟨hmono, ?_, ?_, ?_, ?_, ?_, rfl, rfl, rfl, rfl⟩ <;>
      rw [if_neg hpos] <;> try rw [if_neg hpos]
    all_goals norm_num

/-- C8: compute_confidence_interval returns the degenerate interval
(mean, mean, 0) for fewer than two samples, and for two or more samples
returns (mean - margin, mean + margin, margin) with margin equal to the
critical value (1.96 above 30 samples, 2.0 otherwise) times stddev over
sqrt n, which places the mean inside the interval whenever the square
root function is sign-preserving. -/
theorem claim_C8_confidence (sqrtf : ℚ → ℚ) (values : List ℚ)
    (hpos : ∀ x : ℚ, 0 ≤ x → 0 ≤ sqrtf x) (hspos : ∀ x : ℚ, 0 < x → 0 < sqrtf x) :
    (values.length < 2 →
      compute_confidence_interval sqrtf values = (values.getD 0 0, values.getD 0 0, 0)) ∧
    (2 ≤ values.length →
      compute_confidence_interval sqrtf values =
        (pyMean values -
            (if 30 < values.length then (1.96 : ℚ) else 2) *
              (pyStdev sqrtf values / sqrtf (values.length : ℚ)),
          pyMean values +
            (if 30 < values.length then (1.96 : ℚ) else 2) *
              (pyStdev sqrtf values / sqrtf (values.length : ℚ)),
          (if 30 < values.length then (1.96 : ℚ) else 2) *
            (pyStdev sqrtf values / sqrtf (values.length : ℚ))) ∧
      (compute_confidence_interval sqrtf values).1 ≤ pyMean values ∧
      pyMean values ≤ (compute_confidence_interval sqrtf values).2.1) := by
  constructor
  · intro h
    simp only [compute_confidence_interval, if_pos h]
  · intro h
    have hnot : ¬ values.length < 2 := by omega
    have hvar : 0 ≤ pyVariance values := pyVariance_nonneg h
    have hst : 0 ≤ pyStdev sqrtf values := hpos _ hvar
    have hsn : 0 < sqrtf (values.length : ℚ) := by
      apply hspos
      exact_mod_cast (by omega : 0 < values.length)
    have hmargin : 0 ≤ (if 30 < values.length then (1.96 : ℚ) else 2) *
        (pyStdev sqrtf values / sqrtf (values.length : ℚ)) := by
      apply mul_nonneg
      · split_ifs <;> norm_num
      · exact div_nonneg hst (le_of_lt hsn)
    have e1 : (compute_confidence_interval sqrtf values).1 =
        pyMean values - (if 30 < values.length then (1.96 : ℚ) else 2) *
          (pyStdev sqrtf values / sqrtf (values.length : ℚ)) := by
      simp only [compute_confidence_interval, if_neg hnot]
    have e2 : (compute_confidence_interval sqrtf values).2.1 =
        pyMean values + (if 30 < values.length then (1.96 : ℚ) else 2) *
          (pyStdev sqrtf values / sqrtf (values.length : ℚ)) := by
      simp only [compute_confidence_interval, if_neg hnot]
    refine ⟨?_, ?_, ?_⟩
    · simp only [compute_confidence_interval, if_neg hnot]
    · rw [e1]
      linarith
    · rw [e2]
      linarith

/-- C8 witness: the theorem applied to the two-sample set 0, 2 with the
identity standing in for the square root; the mean lies inside the
returned interval. -/
theorem claim_C8_witness :
    (compute_confidence_interval (fun x => x) [0, 2]).1 ≤ pyMean [0, 2] ∧
    pyMean [0, 2] ≤ (compute_confidence_interval (fun x => x) [0, 2]).2.1 := by
  have h := (claim_C8_confidence (fun x => x) [0, 2] (fun x hx => hx) (fun x hx => hx)).2
    (by decide)
  exact ⟨h.2.1, h.2.2⟩

/-- C3, counterexample: on twenty samples (nineteen zeros and one 100)
the 100-bin quantile lookup extrapolates past the data: the 99th
percentile evaluates to 179 while the maximum is 100, so the claimed
ladder p99 at most max fails. -/
theorem claim_C3_counterexample :
    (duration_stats (fun x => x) cexOps).p99 = 179 ∧
    (duration_stats (fun x => x) cexOps).max = 100 ∧
    ¬((duration_stats (fun x => x) cexOps).p99 ≤ (duration_stats (fun x => x) cexOps).max) := by
  have hne : cexOps ≠ [] := by simp [cexOps]
  have hdur : cexOps.map (fun op => op.duration_ms) = cexVals := by decide
  have hsorted : List.Sorted (fun a b => (a : ℚ) ≤ b) cexVals := by decide
  have hvne : cexVals ≠ [] := by decide
  have hsort_eq : pySorted cexVals = cexVals := List.Sorted.insertionSort_eq hsorted
  have hp99 : (duration_stats (fun x => x) cexOps).p99 = 179 := by
    simp only [duration_stats, if_neg hne, hdur]
    simp only [percentile, if_neg hvne, if_pos (by decide : 1 < cexVals.length)]
    rw [hsort_eq, pyQuantiles100_getD _ (by norm_num) (by norm_num)]
    have hj : qj cexVals 99 = 19 := by decide
    have hdelta : qdelta cexVals 99 = 179 := by decide
    simp only [qpoint, hj, hdelta]
    have h18 : cexVals.getD (19 - 1) 0 = 0 := by decide
    have h19 : cexVals.getD 19 0 = 100 := by decide
    rw [h18, h19]
    push_cast
    norm_num
  have hmax : (duration_stats (fun x => x) cexOps).max = 100 := by
    simp only [duration_stats, if_neg hne, hdur]
    decide
  exact ⟨hp99, hmax, by rw [hp99, hmax]; norm_num⟩

/-- C3, amended: for every non-empty sample collection, min at most
median at most max holds for the summary statistics, and the percentile
ladder p50 at most p95 at most p99 holds under both implementations;
the direct sorted-array indexing implementation additionally satisfies
p99 at most max, while the 100-bin quantile lookup can exceed max by
extrapolation. -/
theorem claim_C3_amended (sqrtf : ℚ → ℚ) (ops : List DDLOperation) (values : List ℚ)
    (hops : ops ≠ []) (hv : values ≠ []) :
    ((duration_stats sqrtf ops).min ≤ (duration_stats sqrtf ops).median ∧
      (duration_stats sqrtf ops).median ≤ (duration_stats sqrtf ops).max) ∧
    (percentile values 50 ≤ percentile values 95 ∧
      percentile values 95 ≤ percentile values 99) ∧
    ((compute_percentiles sqrtf values).p50 ≤ (compute_percentiles sqrtf values).p95 ∧
      (compute_percentiles sqrtf values).p95 ≤ (compute_percentiles sqrtf values).p99 ∧
      (compute_percentiles sqrtf values).p99 ≤ (compute_percentiles sqrtf values).max) := by
  refine ⟨?_, ⟨percentile_mono hv (by norm_num) (by norm_num) (by norm_num),
    percentile_mono hv (by norm_num) (by norm_num) (by norm_num)⟩, ?_⟩
  · have hd : ops.map (fun op => op.duration_ms) ≠ [] := by
      intro hc
      have hlen0 := congrArg List.length hc
      simp only [List.length_map, List.length_nil] at hlen0
      exact hops (List.length_eq_zero.mp hlen0)
    have hmin_eq : (duration_stats sqrtf ops).min =
        pyMin (ops.map fun op => op.duration_ms) := by
      simp only [duration_stats, if_neg hops]
    have hmed_eq : (duration_stats sqrtf ops).median =
        pyMedian (ops.map fun op => op.duration_ms) := by
      simp only [duration_stats, if_neg hops]
    have hmax_eq : (duration_stats sqrtf ops).max =
        pyMax (ops.map fun op => op.duration_ms) := by
      simp only [duration_stats, if_neg hops]
    rw [hmin_eq, hmed_eq, hmax_eq]
    exact pyMedian_bounds hd
  · simp only [compute_percentiles, if_neg hv]
    have hs := pySorted_sorted values
    have hlen := pySorted_length values
    have hpos : 0 < values.length := List.length_pos.mpr hv
    have hposS : 0 < (pySorted values).length := by omega
    exact ⟨getD_mono_of_sorted hs (by omega) (by omega),
      getD_mono_of_sorted hs (by omega) (by omega),
      getD_mono_of_sorted hs (by omega) (by omega)⟩

/-- C3 witness: the amended theorem applied to the one-element sample
collections built from a single operation of duration 5. -/
theorem claim_C3_witness :
    ((duration_stats (fun x => x) [sampleOp 5]).min ≤
        (duration_stats (fun x => x) [sampleOp 5]).median ∧
      (duration_stats (fun x => x) [sampleOp 5]).median ≤
        (duration_stats (fun x => x) [sampleOp 5]).max) ∧
    (percentile [5] 50 ≤ percentile [5] 95 ∧
      percentile [5] 95 ≤ percentile [5] 99) ∧
    ((compute_percentiles (fun x => x) [5]).p50 ≤ (compute_percentiles (fun x => x) [5]).p95 ∧
      (compute_percentiles (fun x => x) [5]).p95 ≤ (compute_percentiles (fun x => x) [5]).p99 ∧
      (compute_percentiles (fun x => x) [5]).p99 ≤ (compute_percentiles (fun x => x) [5]).max) :=
  claim_C3_amended (fun x => x) [sampleOp 5] [5] (by simp) (by simp)
